import Mathlib

/-!
Shallow embedding of the chat-demo repository: the `CharacterTracker`
cursor-to-sprite state machine (the five-bucket variant of `script.js` and
the three-bucket variant of `script.ts`), the `setDirection` sprite
mapping, the page-level `handleSubmit` submission guard, the
`simulateAIConversation` stanza loop, and the `smoothScrollTo`
interpolation.

DOM geometry (the mirror-div caret measurement of `getCursorPosition`) is
modelled as an oracle `measure : String → ℚ` returning the horizontal
pixel offset of the caret marker placed after a given text, and
`Date.now()` as an explicit `now : Int` argument threaded into each call.
Pixel quantities are rationals; timestamps are integers.
-/

namespace ChatDemo

/-- Characters removed by JavaScript `String.prototype.trim` (the ASCII
whitespace actually exercised by the page: space, tab, newline, carriage
return). -/
def isJSWhitespace (c : Char) : Bool :=
  c = ' ' ∨ c = '\t' ∨ c = '\n' ∨ c = '\r'

/-- Model of JavaScript `String.prototype.trim`: drop leading and trailing
whitespace characters. -/
def jsTrim (s : String) : String :=
  String.mk (((s.data.dropWhile isJSWhitespace).reverse.dropWhile
    isJSWhitespace).reverse)

/-- Mutable fields of a `CharacterTracker` instance together with the
`src` attribute of the character image element it writes
(`script.js` lines 79–81, `script.ts` lines 91–93). -/
structure TrackerState where
  currentDirection : String
  lastUpdateTime : Int
  spriteSrc : String
  deriving Repr, DecidableEq

/-- The `validDirections` array of `script.js` `setDirection`
(line 208). -/
def validDirectionsJS : List String :=
  ["idle", "look-left", "look-down-left", "look-down", "look-down-right",
   "look-right"]

/-- Sprite path resolution of `script.js` `setDirection` (lines 206–216):
unrecognized names fall back to `idle`, `idle` maps to its distinguished
path, every other valid name to `assets/character/<name>.png`. -/
def spritePathJS (direction : String) : String :=
  let spriteName := if validDirectionsJS.contains direction
    then direction else "idle"
  if spriteName = "idle" then "assets/character/idle.png"
  else "assets/character/" ++ spriteName ++ ".png"

/-- `script.js` `CharacterTracker.setDirection` (lines 201–221).  The
second component counts writes to `character.src` performed by the call
(`0` when the direction is unchanged, `1` otherwise). -/
def setDirectionJSW (st : TrackerState) (direction : String) :
    TrackerState × Nat :=
  if st.currentDirection ≠ direction then
    ({ currentDirection := direction, lastUpdateTime := st.lastUpdateTime,
       spriteSrc := spritePathJS direction }, 1)
  else (st, 0)

/-- `script.js` `setDirection`, state component only. -/
def setDirectionJS (st : TrackerState) (direction : String) : TrackerState :=
  (setDirectionJSW st direction).1

/-- Sprite path resolution of `script.ts` `setDirection` (lines 205–214):
the source tests the four recognized names by explicit inequalities. -/
def spritePathTS (direction : String) : String :=
  let spriteName :=
    if direction ≠ "idle" ∧ direction ≠ "look-left" ∧
        direction ≠ "look-right" ∧ direction ≠ "look-down"
    then "idle" else direction
  if spriteName = "idle" then "assets/character/idle.png"
  else "assets/character/" ++ spriteName ++ ".png"

/-- `script.ts` `CharacterTracker.setDirection` (lines 200–218), with the
same write count as the JS variant. -/
def setDirectionTSW (st : TrackerState) (direction : String) :
    TrackerState × Nat :=
  if st.currentDirection ≠ direction then
    ({ currentDirection := direction, lastUpdateTime := st.lastUpdateTime,
       spriteSrc := spritePathTS direction }, 1)
  else (st, 0)

/-- `script.ts` `setDirection`, state component only. -/
def setDirectionTS (st : TrackerState) (direction : String) : TrackerState :=
  (setDirectionTSW st direction).1

/-- The four direction names recognized by `script.ts` `setDirection`
(line 208), gathered into a list for statements about the recognized
set. -/
def validDirectionsTS : List String :=
  ["idle", "look-left", "look-right", "look-down"]

/-- Five-bucket classification of `script.js` `updateDirection`
(lines 169–192): thresholds are multiples of `centerX = width / 2`. -/
def bucket5JS (cursorX width : ℚ) : String :=
  let centerX := width / 2
  if cursorX < centerX * 0.5 then "look-left"
  else if cursorX < centerX * 0.85 then "look-down-left"
  else if cursorX < centerX * 1.15 then "look-down"
  else if cursorX < centerX * 1.5 then "look-down-right"
  else "look-right"

/-- Three-bucket classification of `script.ts` `updateCharacterDirection`
(lines 181–192) over the normalized position
`relativePos = cursorLeft / containerWidth`. -/
def bucket3TS (relativePos : ℚ) : String :=
  if relativePos < 0.4 then "look-left"
  else if relativePos > 0.6 then "look-right"
  else "look-down"

/-- `script.js` `CharacterTracker.updateDirection` (lines 158–194): 50ms
throttle on `Date.now()`, then the caret measurement
(`getCursorPosition`, modelled by `measure` applied to the text before
the caret) is classified by the five-bucket scheme and applied through
`setDirection`.  The source performs no empty-input check in this
variant. -/
def updateDirectionJS (st : TrackerState) (now : Int)
    (measure : String → ℚ) (text : String) (caret : Nat) (width : ℚ) :
    TrackerState :=
  if now - st.lastUpdateTime < 50 then st
  else
    let st1 : TrackerState := { st with lastUpdateTime := now }
    let cursorX := measure (text.take caret)
    setDirectionJS st1 (bucket5JS cursorX width)

/-- `script.ts` `CharacterTracker.updateCharacterDirection`
(lines 149–198): 50ms throttle, then the empty-input check
(`text.length === 0` forces `idle`), then the three-bucket
classification of the measured caret position divided by the container
width. -/
def updateCharacterDirectionTS (st : TrackerState) (now : Int)
    (measure : String → ℚ) (text : String) (caret : Nat) (width : ℚ) :
    TrackerState :=
  if now - st.lastUpdateTime < 50 then st
  else
    let st1 : TrackerState := { st with lastUpdateTime := now }
    if text.length = 0 then setDirectionTS st1 "idle"
    else
      let cursorX := measure (text.take caret)
      setDirectionTS st1 (bucket3TS (cursorX / width))

/-- One `setDirection` call of the JS variant inside a call sequence,
accumulating the sprite-write count. -/
def stepSetDirectionJS (acc : TrackerState × Nat) (d : String) :
    TrackerState × Nat :=
  ((setDirectionJSW acc.1 d).1, acc.2 + (setDirectionJSW acc.1 d).2)

/-- A sequence of consecutive `setDirection` calls (JS variant) from a
starting state, returning the final state and the total number of sprite
writes. -/
def runSetDirectionJS (st : TrackerState) (calls : List String) :
    TrackerState × Nat :=
  calls.foldl stepSetDirectionJS (st, 0)

/-- The fixed demo message substituted for the typed input by
`handleSubmit` (`script.js` line 514). -/
def fixedMessage : String :=
  "Hey DataSage, I released a new diagnostics tools on the 11th of October 2025. What is the impact of this change on the revenue"

/-- Page-level state read and written by `handleSubmit` (`script.js`
lines 452, 505–547): the `messageSubmitted` guard, the chat input value,
the conversation log as (participant kind, content) pairs, and the
number of `simulateAIConversation` invocations.  DOM-only effects
(button disabling, textarea height, the intro-text animation) are
outside the modelled state. -/
structure PageState where
  messageSubmitted : Bool
  inputValue : String
  log : List (String × String)
  sequencerStarted : Nat
  deriving Repr, DecidableEq

/-- `script.js` `handleSubmit` (lines 505–547): return if the guard is
set; otherwise, when the trimmed input is non-empty, log the fixed demo
message as the user entry, clear the input, set the guard, and start
`simulateAIConversation`. -/
def handleSubmit (st : PageState) : PageState :=
  if st.messageSubmitted then st
  else
    let message := jsTrim st.inputValue
    if message ≠ "" then
      { messageSubmitted := true, inputValue := "",
        log := st.log ++ [("user", fixedMessage)],
        sequencerStarted := st.sequencerStarted + 1 }
    else st

/-- Page events that can reach the modelled state: editing the input and
pressing submit (button click or Enter, both call `handleSubmit`). -/
inductive PageEvent where
  | setInput (s : String)
  | submit
  deriving Repr, DecidableEq

/-- One page event applied to the page state. -/
def pageStep (st : PageState) : PageEvent → PageState
  | PageEvent.setInput s => { st with inputValue := s }
  | PageEvent.submit => handleSubmit st

/-- A page session: a sequence of events applied in order. -/
def runPage (st : PageState) (evs : List PageEvent) : PageState :=
  evs.foldl pageStep st

/-- The page state at load: guard false, empty input, empty log, sequencer
not started (`script.js` line 452 and `DOMContentLoaded`). -/
def initialPage : PageState :=
  { messageSubmitted := false, inputValue := "", log := [],
    sequencerStarted := 0 }

/-- Number of user-attributed entries in the conversation log. -/
def userEntryCount (log : List (String × String)) : Nat :=
  log.countP (fun e => e.1 == "user")

/-- The phases `simulateAIConversation` runs for a stanza: typing, the
3000ms hold, and (only before the last stanza) the delete phase. -/
inductive SeqPhase where
  | typePhase (i : Nat)
  | holdPhase (i : Nat)
  | deletePhase (i : Nat)
  deriving Repr, DecidableEq

/-- Phases of iteration `i` of the `simulateAIConversation` loop
(`script.js` lines 355–366): type the stanza, hold, and delete it only
when `i < thoughts.length - 1`. -/
def stanzaPhases (n i : Nat) : List SeqPhase :=
  [SeqPhase.typePhase i, SeqPhase.holdPhase i]
    ++ (if i < n - 1 then [SeqPhase.deletePhase i] else [])

/-- The phase trace of an uninterrupted `simulateAIConversation` run over
a given script of stanzas. -/
def conversationPhases (thoughts : List String) : List SeqPhase :=
  (List.range thoughts.length).flatMap (stanzaPhases thoughts.length)

/-- Whether a phase is a delete phase (a `TypeWriter.delete` run,
`script.js` lines 259–269). -/
def isDeletePhase : SeqPhase → Bool
  | SeqPhase.deletePhase _ => true
  | _ => false

/-- Number of delete phases in an uninterrupted run. -/
def deletePhaseCount (thoughts : List String) : Nat :=
  (conversationPhases thoughts).countP isDeletePhase

/-- The default three-stanza script (`script.js` lines 348–352). -/
def defaultThoughts : List String :=
  ["Thinking...",
   "Writing a SQL query to get numbers and facts...",
   "Listening to what users have said..."]

/-- The cubic ease-out of `smoothScrollTo` (`script.js` line 1096). -/
def easeOutCubic (progress : ℚ) : ℚ :=
  1 - (1 - progress) ^ 3

/-- The clamped progress fraction of `smoothScrollTo`
(`script.js` line 1093): `Math.min(timeElapsed / duration, 1)`. -/
def scrollProgress (timeElapsed duration : ℚ) : ℚ :=
  min (timeElapsed / duration) 1

/-- The per-frame scroll offset written by `smoothScrollTo`
(`script.js` line 1098). -/
def scrollFrame (currentScroll targetScroll progress : ℚ) : ℚ :=
  currentScroll + (targetScroll - currentScroll) * easeOutCubic progress

/-- Invariant of the page state: the sequencer has started at most once,
at most one user entry was logged, and nothing has happened while the
guard is still down. -/
def pageInv (st : PageState) : Prop :=
  st.sequencerStarted ≤ 1 ∧ userEntryCount st.log ≤ 1 ∧
    (st.messageSubmitted = false →
      st.sequencerStarted = 0 ∧ userEntryCount st.log = 0)

lemma handleSubmit_of_submitted (st : PageState)
    (h : st.messageSubmitted = true) : handleSubmit st = st := by
  simp [handleSubmit, h]

lemma userEntryCount_append_user (log : List (String × String)) (m : String) :
    userEntryCount (log ++ [("user", m)]) = userEntryCount log + 1 := by
  simp [userEntryCount, List.countP_append]

lemma pageStep_inv (st : PageState) (ev : PageEvent) (h : pageInv st) :
    pageInv (pageStep st ev) := by
  cases ev with
  | setInput s => exact ⟨h.1, h.2.1, h.2.2⟩
  | submit =>
    show pageInv (handleSubmit st)
    by_cases hm : st.messageSubmitted = true
    · rw [handleSubmit_of_submitted st hm]; exact h
    · have hm' : st.messageSubmitted = false := by
        cases hv : st.messageSubmitted
        · rfl
        · exact absurd hv hm
      by_cases ht : jsTrim st.inputValue ≠ ""
      · have hseq := (h.2.2 hm').1
        have hlog := (h.2.2 hm').2
        refine ⟨?_, ?_, ?_⟩
        · simp [handleSubmit, hm', ht, hseq]
        · simp [handleSubmit, hm', ht, userEntryCount_append_user, hlog]
        · intro hfalse
          simp [handleSubmit, hm', ht] at hfalse
      · have : handleSubmit st = st := by simp [handleSubmit, hm', ht]
        rw [this]; exact h

lemma runPage_inv (evs : List PageEvent) :
    ∀ st : PageState, pageInv st → pageInv (runPage st evs) := by
  induction evs with
  | nil => intro st h; exact h
  | cons e t ih =>
    intro st h
    have := ih (pageStep st e) (pageStep_inv st e h)
    simpa [runPage] using this

lemma initialPage_inv : pageInv initialPage := by
  refine ⟨by simp [initialPage], by simp [initialPage, userEntryCount], ?_⟩
  intro _
  exact ⟨rfl, rfl⟩

/-- C2: once the `messageSubmitted` guard is true, every further
`handleSubmit` call leaves the page state unchanged — it appends no
conversation-log entry and does not invoke `simulateAIConversation` —
and over any page session from load, the sequencer is started and the
user message logged at most once. -/
theorem handleSubmit_guard_once :
    (∀ st : PageState, st.messageSubmitted = true →
      handleSubmit st = st ∧ (handleSubmit st).log = st.log ∧
        (handleSubmit st).sequencerStarted = st.sequencerStarted)
    ∧ (∀ evs : List PageEvent,
        (runPage initialPage evs).sequencerStarted ≤ 1
        ∧ userEntryCount (runPage initialPage evs).log ≤ 1) := by
  constructor
  · intro st h
    have he := handleSubmit_of_submitted st h
    exact ⟨he, by rw [he], by rw [he]⟩
  · intro evs
    have h := runPage_inv evs initialPage initialPage_inv
    exact ⟨h.1, h.2.1⟩

/-- Witness for C2: a second submission attempt with the guard already
set is the identity on a concrete state. -/
theorem handleSubmit_guard_once_witness :
    handleSubmit ⟨true, "again", [("user", fixedMessage)], 1⟩
      = ⟨true, "again", [("user", fixedMessage)], 1⟩ :=
  (handleSubmit_guard_once.1 ⟨true, "again", [("user", fixedMessage)], 1⟩
    rfl).1

/-- C3: submitting any two inputs that are non-empty after trimming
appends the same single user entry carrying the fixed demo message; the
logged content does not depend on the typed input, and differs from the
typed input unless that input happens to be the fixed demo string. -/
theorem handleSubmit_fixed_message :
    ∀ (s t : PageState) (a b : String),
      s.messageSubmitted = false → t.messageSubmitted = false →
      jsTrim a ≠ "" → jsTrim b ≠ "" →
      (handleSubmit { s with inputValue := a }).log
          = s.log ++ [("user", fixedMessage)]
      ∧ (handleSubmit { t with inputValue := b }).log
          = t.log ++ [("user", fixedMessage)]
      ∧ ((handleSubmit { s with inputValue := a }).log.drop s.log.length
          = (handleSubmit { t with inputValue := b }).log.drop t.log.length)
      ∧ (a ≠ fixedMessage →
          ∀ e ∈ (handleSubmit { s with inputValue := a }).log.drop
            s.log.length, e.2 ≠ a) := by
  intro s t a b hs ht ha hb
  have key : ∀ (u : PageState) (x : String), u.messageSubmitted = false →
      jsTrim x ≠ "" →
      (handleSubmit { u with inputValue := x }).log
        = u.log ++ [("user", fixedMessage)] := by
    intro u x hu hx
    simp [handleSubmit, hu, hx]
  have d1 : (handleSubmit { s with inputValue := a }).log.drop s.log.length
      = [("user", fixedMessage)] := by
    rw [key s a hs ha, List.drop_left]
  have d2 : (handleSubmit { t with inputValue := b }).log.drop t.log.length
      = [("user", fixedMessage)] := by
    rw [key t b ht hb, List.drop_left]
  refine ⟨key s a hs ha, key t b ht hb, by rw [d1, d2], ?_⟩
  intro hne e he
  rw [d1] at he
  have : e = ("user", fixedMessage) := List.mem_singleton.mp he
  subst this
  exact fun h => hne h.symm

/-- Witness for C3: submitting the concrete input `"hello"` logs the
fixed demo message. -/
theorem handleSubmit_fixed_message_witness :
    (handleSubmit ⟨false, "hello", [], 0⟩).log
      = [] ++ [("user", fixedMessage)] :=
  (handleSubmit_fixed_message ⟨false, "hello", [], 0⟩ ⟨false, "world", [], 0⟩
    "hello" "world" rfl rfl (by decide) (by decide)).1

/-- C10: when the input trims to the empty string, `handleSubmit` is a
complete no-op on the page state, also before the first submission: the
guard stays as it was, nothing is logged, the input is not cleared and
the sequencer is not started. -/
theorem handleSubmit_empty_noop :
    ∀ st : PageState, jsTrim st.inputValue = "" → handleSubmit st = st := by
  intro st h
  by_cases hm : st.messageSubmitted = true
  · simp [handleSubmit, hm]
  · have hm' : st.messageSubmitted = false := by
      cases hv : st.messageSubmitted
      · rfl
      · exact absurd hv hm
    simp [handleSubmit, hm', h]

/-- Witness for C10: a whitespace-only input leaves a concrete fresh
state untouched. -/
theorem handleSubmit_empty_noop_witness :
    handleSubmit ⟨false, "   ", [], 0⟩ = ⟨false, "   ", [], 0⟩ :=
  handleSubmit_empty_noop ⟨false, "   ", [], 0⟩ (by decide)

lemma setDirectionJS_lastUpdateTime (st : TrackerState) (d : String) :
    (setDirectionJS st d).lastUpdateTime = st.lastUpdateTime := by
  by_cases h : st.currentDirection = d <;>
    simp [setDirectionJS, setDirectionJSW, h]

lemma setDirectionTS_lastUpdateTime (st : TrackerState) (d : String) :
    (setDirectionTS st d).lastUpdateTime = st.lastUpdateTime := by
  by_cases h : st.currentDirection = d <;>
    simp [setDirectionTS, setDirectionTSW, h]

lemma setDirectionTS_currentDirection (st : TrackerState) (d : String) :
    (setDirectionTS st d).currentDirection = d := by
  by_cases h : st.currentDirection = d
  · simp [setDirectionTS, setDirectionTSW, h]
  · simp [setDirectionTS, setDirectionTSW, h]

lemma updateDirectionJS_throttled (st : TrackerState) (now : Int)
    (measure : String → ℚ) (text : String) (caret : Nat) (width : ℚ)
    (h : now - st.lastUpdateTime < 50) :
    updateDirectionJS st now measure text caret width = st := by
  simp [updateDirectionJS, h]

lemma updateCharacterDirectionTS_throttled (st : TrackerState) (now : Int)
    (measure : String → ℚ) (text : String) (caret : Nat) (width : ℚ)
    (h : now - st.lastUpdateTime < 50) :
    updateCharacterDirectionTS st now measure text caret width = st := by
  simp [updateCharacterDirectionTS, h]

lemma updateDirectionJS_lastUpdateTime (st : TrackerState) (now : Int)
    (measure : String → ℚ) (text : String) (caret : Nat) (width : ℚ)
    (h : ¬(now - st.lastUpdateTime < 50)) :
    (updateDirectionJS st now measure text caret width).lastUpdateTime
      = now := by
  simp [updateDirectionJS, h, setDirectionJS_lastUpdateTime]

lemma updateCharacterDirectionTS_lastUpdateTime (st : TrackerState)
    (now : Int) (measure : String → ℚ) (text : String) (caret : Nat)
    (width : ℚ) (h : ¬(now - st.lastUpdateTime < 50)) :
    (updateCharacterDirectionTS st now measure text caret
      width).lastUpdateTime = now := by
  by_cases he : text.length = 0 <;>
    simp [updateCharacterDirectionTS, h, he, setDirectionTS_lastUpdateTime]

/-- C5: a direction update invoked strictly less than 50ms after a
previous update that passed the throttle is a no-op in both variants: the
tracker state (current direction, last-update timestamp and sprite
source) is exactly the state left by the first call. -/
theorem updateDirection_throttle_noop :
    ∀ (st : TrackerState) (n1 n2 : Int) (m1 m2 : String → ℚ)
      (t1 t2 : String) (c1 c2 : Nat) (w1 w2 : ℚ),
      ¬(n1 - st.lastUpdateTime < 50) → n2 - n1 < 50 →
      updateDirectionJS (updateDirectionJS st n1 m1 t1 c1 w1) n2 m2 t2 c2 w2
          = updateDirectionJS st n1 m1 t1 c1 w1
      ∧ updateCharacterDirectionTS
            (updateCharacterDirectionTS st n1 m1 t1 c1 w1) n2 m2 t2 c2 w2
          = updateCharacterDirectionTS st n1 m1 t1 c1 w1 := by
  intro st n1 n2 m1 m2 t1 t2 c1 c2 w1 w2 h1 h2
  constructor
  · apply updateDirectionJS_throttled
    rw [updateDirectionJS_lastUpdateTime st n1 m1 t1 c1 w1 h1]
    exact h2
  · apply updateCharacterDirectionTS_throttled
    rw [updateCharacterDirectionTS_lastUpdateTime st n1 m1 t1 c1 w1 h1]
    exact h2

/-- Witness for C5: a concrete second call 20ms after a successful
update leaves the state of the first call unchanged. -/
theorem updateDirection_throttle_noop_witness :
    updateDirectionJS
        (updateDirectionJS ⟨"idle", 0, "assets/character/idle.png"⟩ 100
          (fun _ => 0) "a" 1 600)
        120 (fun _ => 300) "ab" 2 600
      = updateDirectionJS ⟨"idle", 0, "assets/character/idle.png"⟩ 100
          (fun _ => 0) "a" 1 600 :=
  (updateDirection_throttle_noop ⟨"idle", 0, "assets/character/idle.png"⟩
    100 120 (fun _ => 0) (fun _ => 300) "a" "ab" 1 2 600 600
    (by decide) (by decide)).1

/-- Counterexample to C1 as stated: the `script.js` variant
(`updateDirection`, lines 158–194) performs no empty-input check.  With
empty text, caret at offset 0, the marker measured at the left edge and a
600px-wide surface, a non-throttled call buckets the position as usual
and sets `look-left`, not `idle`. -/
theorem updateDirection_empty_input_not_idle :
    (updateDirectionJS ⟨"idle", 0, "assets/character/idle.png"⟩ 100
        (fun _ => 0) "" 0 600).currentDirection = "look-left"
    ∧ ("look-left" : String) ≠ "idle" := by
  constructor
  · norm_num [updateDirectionJS, bucket5JS, setDirectionJS,
      setDirectionJSW, spritePathJS]
    decide
  · decide

/-- C1 (amended): in the `script.ts` variant
(`updateCharacterDirection`), a non-throttled call with empty input
forces `idle` and returns without bucketing — the result is exactly
`setDirection` applied to `idle`, its direction is `idle`, and it does
not depend on the measured geometry.  The `script.js` variant
(`updateDirection`) has no such check and buckets the measured caret
position even when the input is empty. -/
theorem updateCharacterDirection_empty_input_idle :
    ∀ (st : TrackerState) (now : Int) (m1 m2 : String → ℚ)
      (text : String) (c1 c2 : Nat) (w1 w2 : ℚ),
      text.length = 0 → ¬(now - st.lastUpdateTime < 50) →
      updateCharacterDirectionTS st now m1 text c1 w1
          = setDirectionTS { st with lastUpdateTime := now } "idle"
      ∧ (updateCharacterDirectionTS st now m1 text c1 w1).currentDirection
          = "idle"
      ∧ updateCharacterDirectionTS st now m1 text c1 w1
          = updateCharacterDirectionTS st now m2 text c2 w2 := by
  intro st now m1 m2 text c1 c2 w1 w2 hlen h
  have key : ∀ (m : String → ℚ) (c : Nat) (w : ℚ),
      updateCharacterDirectionTS st now m text c w
        = setDirectionTS { st with lastUpdateTime := now } "idle" := by
    intro m c w
    simp [updateCharacterDirectionTS, h, hlen]
  refine ⟨key m1 c1 w1, ?_, (key m1 c1 w1).trans (key m2 c2 w2).symm⟩
  rw [key m1 c1 w1]
  exact setDirectionTS_currentDirection _ "idle"

/-- Witness for C1 (amended): a concrete non-throttled call on empty
input from a `look-right` state ends in `idle`. -/
theorem updateCharacterDirection_empty_input_idle_witness :
    (updateCharacterDirectionTS
        ⟨"look-right", 0, "assets/character/look-right.png"⟩ 100
        (fun _ => 0) "" 0 600).currentDirection = "idle" :=
  (updateCharacterDirection_empty_input_idle
    ⟨"look-right", 0, "assets/character/look-right.png"⟩ 100
    (fun _ => 0) (fun _ => 5) "" 0 0 600 600 rfl (by decide)).2.1

lemma setDirectionJSW_fst_currentDirection (st : TrackerState)
    (d : String) : ((setDirectionJSW st d).1).currentDirection = d := by
  by_cases h : st.currentDirection = d
  · simp [setDirectionJSW, h]
  · simp [setDirectionJSW, h]

lemma setDirectionJSW_self (st : TrackerState) (d : String)
    (h : st.currentDirection = d) : setDirectionJSW st d = (st, 0) := by
  simp [setDirectionJSW, h]

lemma foldl_stepSetDirectionJS_const :
    ∀ (m : Nat) (st : TrackerState) (k : Nat) (d : String),
      st.currentDirection = d →
      (List.replicate m d).foldl stepSetDirectionJS (st, k) = (st, k) := by
  intro m
  induction m with
  | zero => intro st k d _; rfl
  | succ p ih =>
    intro st k d h
    rw [List.replicate_succ, List.foldl_cons]
    have hs : stepSetDirectionJS (st, k) d = (st, k) := by
      simp [stepSetDirectionJS, setDirectionJSW_self st d h]
    rw [hs]
    exact ih st k d h

/-- Counterexample to C6 as stated: starting from a state already facing
`idle`, two consecutive `setDirection` calls with `idle` perform zero
sprite writes, not exactly one. -/
theorem setDirection_repeat_zero_writes :
    (runSetDirectionJS ⟨"idle", 0, "assets/character/idle.png"⟩
        ["idle", "idle"]).2 = 0
    ∧ (0 : Nat) ≠ 1 := by
  constructor
  · decide
  · decide

/-- C6 (amended): any non-empty sequence of consecutive `setDirection`
calls with one direction value leaves the tracker in the state reached
after the first call, and performs at most one sprite write — exactly
one when the direction differs from the starting current direction, and
zero when it already equals it. -/
theorem setDirection_repeat_at_most_one_write :
    ∀ (st : TrackerState) (d : String) (n : Nat), 1 ≤ n →
      (runSetDirectionJS st (List.replicate n d)).1 = setDirectionJS st d
      ∧ (runSetDirectionJS st (List.replicate n d)).2
          = (if st.currentDirection = d then 0 else 1) := by
  intro st d n hn
  cases n with
  | zero => exact absurd hn (by omega)
  | succ m =>
    rw [runSetDirectionJS, List.replicate_succ, List.foldl_cons]
    have hstep : stepSetDirectionJS (st, 0) d
        = ((setDirectionJSW st d).1, (setDirectionJSW st d).2) := by
      simp [stepSetDirectionJS]
    rw [hstep,
      foldl_stepSetDirectionJS_const m ((setDirectionJSW st d).1)
        ((setDirectionJSW st d).2) d
        (setDirectionJSW_fst_currentDirection st d)]
    constructor
    · rfl
    · by_cases h : st.currentDirection = d <;> simp [setDirectionJSW, h]

/-- Witness for C6 (amended): three consecutive `look-left` calls from
an `idle` state perform exactly one sprite write. -/
theorem setDirection_repeat_at_most_one_write_witness :
    (runSetDirectionJS ⟨"idle", 0, "assets/character/idle.png"⟩
        (List.replicate 3 "look-left")).2
      = (if (TrackerState.mk "idle" 0
            "assets/character/idle.png").currentDirection = "look-left"
         then 0 else 1) :=
  (setDirection_repeat_at_most_one_write
    ⟨"idle", 0, "assets/character/idle.png"⟩ "look-left" 3 (by omega)).2

lemma spritePathJS_cases (d : String) :
    spritePathJS d
      = if d = "idle" ∨ d ∉ validDirectionsJS
        then "assets/character/idle.png"
        else "assets/character/" ++ d ++ ".png" := by
  by_cases hm : d ∈ validDirectionsJS
  · by_cases hd : d = "idle"
    · simp [spritePathJS, hm, hd]
    · simp [spritePathJS, hm, hd]
  · simp [spritePathJS, hm]

lemma spritePathTS_cases (d : String) :
    spritePathTS d
      = if d = "idle" ∨ d ∉ validDirectionsTS
        then "assets/character/idle.png"
        else "assets/character/" ++ d ++ ".png" := by
  by_cases h1 : d = "idle" <;> by_cases h2 : d = "look-left" <;>
    by_cases h3 : d = "look-right" <;> by_cases h4 : d = "look-down" <;>
    simp [spritePathTS, validDirectionsTS, h1, h2, h3, h4]

/-- C7: for every direction string different from the current one, the
written sprite path is the `idle` resource when the string is `idle` or
outside the recognized set of the respective variant, and
`assets/character/<name>.png` for every other recognized name; the
operation is a total function and never throws. -/
theorem setDirection_sprite_path_fallback :
    ∀ (st : TrackerState) (d : String), d ≠ st.currentDirection →
      ((setDirectionJS st d).spriteSrc
        = if d = "idle" ∨ d ∉ validDirectionsJS
          then "assets/character/idle.png"
          else "assets/character/" ++ d ++ ".png")
      ∧ ((setDirectionTS st d).spriteSrc
        = if d = "idle" ∨ d ∉ validDirectionsTS
          then "assets/character/idle.png"
          else "assets/character/" ++ d ++ ".png") := by
  intro st d h
  have h' : ¬(st.currentDirection = d) := fun e => h e.symm
  constructor
  · have : (setDirectionJS st d).spriteSrc = spritePathJS d := by
      simp [setDirectionJS, setDirectionJSW, h']
    rw [this, spritePathJS_cases]
  · have : (setDirectionTS st d).spriteSrc = spritePathTS d := by
      simp [setDirectionTS, setDirectionTSW, h']
    rw [this, spritePathTS_cases]

/-- Witness for C7: the unrecognized direction string `bogus` resolves
to the `idle` resource. -/
theorem setDirection_sprite_path_fallback_witness :
    (setDirectionJS ⟨"idle", 0, "assets/character/idle.png"⟩
        "bogus").spriteSrc
      = if "bogus" = "idle" ∨ "bogus" ∉ validDirectionsJS
        then "assets/character/idle.png"
        else "assets/character/" ++ "bogus" ++ ".png" :=
  (setDirection_sprite_path_fallback
    ⟨"idle", 0, "assets/character/idle.png"⟩ "bogus" (by decide)).1

lemma countP_flatMap_eq {α β : Type} (l : List α) (f : α → List β)
    (p : β → Bool) :
    (l.flatMap f).countP p = (l.map fun a => (f a).countP p).sum := by
  induction l with
  | nil => rfl
  | cons a t ih => simp [List.flatMap_cons, List.countP_append, ih]

lemma stanzaPhases_countP (n i : Nat) :
    (stanzaPhases n i).countP isDeletePhase
      = if i < n - 1 then 1 else 0 := by
  by_cases h : i < n - 1 <;>
    simp [stanzaPhases, h, List.countP_append, List.countP_cons,
      isDeletePhase]

lemma sum_range_indicator (k : Nat) :
    ∀ n : Nat,
      ((List.range n).map fun i => if i < k then 1 else 0).sum
        = min k n := by
  intro n
  induction n with
  | zero => simp
  | succ m ih =>
    rw [List.range_succ, List.map_append, List.sum_append, ih]
    by_cases h : m < k <;> simp [h] <;> omega

lemma deletePhase_mem_stanzaPhases (n i j : Nat) :
    SeqPhase.deletePhase i ∈ stanzaPhases n j ↔ i = j ∧ j < n - 1 := by
  by_cases h : j < n - 1 <;> simp [stanzaPhases, h]

/-- C4: an uninterrupted `simulateAIConversation` run over a script of
`n ≥ 1` stanzas performs exactly `n - 1` delete phases — one after each
stanza `i` with `i < n - 1` and none after the final stanza — and the
default three-stanza script produces exactly 2 delete phases. -/
theorem conversation_delete_phase_count :
    ∀ thoughts : List String, 1 ≤ thoughts.length →
      deletePhaseCount thoughts = thoughts.length - 1
      ∧ (∀ i : Nat,
          SeqPhase.deletePhase i ∈ conversationPhases thoughts
            ↔ i < thoughts.length - 1)
      ∧ deletePhaseCount defaultThoughts = 2 := by
  intro thoughts hn
  refine ⟨?_, ?_, by decide⟩
  · rw [deletePhaseCount, conversationPhases, countP_flatMap_eq]
    simp only [stanzaPhases_countP]
    rw [sum_range_indicator]
    omega
  · intro i
    rw [conversationPhases]
    simp only [List.mem_flatMap, List.mem_range,
      deletePhase_mem_stanzaPhases]
    constructor
    · rintro ⟨j, _, rfl, hlt⟩
      exact hlt
    · intro h
      exact ⟨i, by omega, rfl, h⟩

/-- Witness for C4: the default script yields its length minus one
delete phases. -/
theorem conversation_delete_phase_count_witness :
    deletePhaseCount defaultThoughts = defaultThoughts.length - 1 :=
  (conversation_delete_phase_count defaultThoughts (by decide)).1

/-- C8: under the three-bucket scheme of `script.ts`, the normalized
position 0.39 classifies as `look-left`, 0.4 and 0.6 as `look-down`
(both boundaries fall on the down side), 0.61 as `look-right`; in
general every position below 0.4 is `look-left`, above 0.6 is
`look-right`, and everything in between is `look-down`. -/
theorem bucket3_boundaries :
    bucket3TS 0.39 = "look-left" ∧ bucket3TS 0.4 = "look-down"
    ∧ bucket3TS 0.6 = "look-down" ∧ bucket3TS 0.61 = "look-right"
    ∧ ∀ p : ℚ,
        (p < 0.4 → bucket3TS p = "look-left")
        ∧ (p > 0.6 → bucket3TS p = "look-right")
        ∧ (0.4 ≤ p → p ≤ 0.6 → bucket3TS p = "look-down") := by
  refine ⟨?_, ?_, ?_, ?_, ?_⟩
  · norm_num [bucket3TS]
  · norm_num [bucket3TS]
  · norm_num [bucket3TS]
  · norm_num [bucket3TS]
  · intro p
    refine ⟨fun h => by simp [bucket3TS, h], fun h => ?_, fun h1 h2 => ?_⟩
    · have hnl : ¬ p < 0.4 := by
        rw [not_lt]
        calc (0.4 : ℚ) ≤ 0.6 := by norm_num
        _ ≤ p := le_of_lt h
      simp [bucket3TS, hnl, h]
    · have hnl : ¬ p < 0.4 := not_lt.mpr h1
      have hnr : ¬ p > 0.6 := not_lt.mpr h2
      simp [bucket3TS, hnl, hnr]

/-- Witness for C8: the midpoint 0.5 classifies as `look-down`. -/
theorem bucket3_boundaries_witness : bucket3TS 0.5 = "look-down" :=
  (bucket3_boundaries.2.2.2.2 0.5).2.2 (by norm_num) (by norm_num)

/-- C9: the per-frame scroll offset of `smoothScrollTo` equals
`start + (target - start) * (1 - (1 - p)^3)` for every progress
fraction, the offset at progress 1 is exactly the target, and the
per-frame progress fraction is clamped to never exceed 1. -/
theorem smoothScroll_ease_out_cubic :
    (∀ s t p : ℚ, scrollFrame s t p = s + (t - s) * (1 - (1 - p) ^ 3))
    ∧ (∀ s t : ℚ, scrollFrame s t 1 = t)
    ∧ (∀ e d : ℚ, scrollProgress e d ≤ 1) := by
  refine ⟨fun s t p => rfl, fun s t => ?_, fun e d => min_le_right _ _⟩
  show s + (t - s) * easeOutCubic 1 = t
  rw [easeOutCubic]
  ring

end ChatDemo
